import Mathlib

/-!
# Verification of the Label3dCanvas viewer core and Session key handling

Shallow embedding of `components/label3d_canvas.tsx` (`Label3dCanvas`) and
`common/session.ts` (`Session`) from the scalabel repository.  Numeric values
are embedded as exact rationals; JavaScript objects keyed by numbers are
embedded as association lists; fallible property dereferences (reading a field
of `undefined`) are embedded with `Except`.
-/

namespace Scalabel

/- ## Geometry: vectors and quaternions (THREE.Vector3 / THREE.Quaternion) -/

/-- A 3-dimensional vector with exact rational coordinates. -/
structure Vec3 where
  x : ℚ
  y : ℚ
  z : ℚ
deriving DecidableEq

/-- A quaternion in THREE's component order (x, y, z, w). -/
structure Quat where
  x : ℚ
  y : ℚ
  z : ℚ
  w : ℚ
deriving DecidableEq

/-- The identity quaternion, THREE's default orientation. -/
def idQuat : Quat := ⟨0, 0, 0, 1⟩

/-- The origin vector, THREE's default position. -/
def zeroVec : Vec3 := ⟨0, 0, 0⟩

/-- Hamilton product `a * b`, the formula of
`THREE.Quaternion.multiplyQuaternions(a, b)`; `q.multiply(p)` in THREE is
`q := quatMul q p` (the argument multiplies on the right). -/
def quatMul (a b : Quat) : Quat :=
  ⟨a.x * b.w + a.w * b.x + a.y * b.z - a.z * b.y,
   a.y * b.w + a.w * b.y + a.z * b.x - a.x * b.z,
   a.z * b.w + a.w * b.z + a.x * b.y - a.y * b.x,
   a.w * b.w - a.x * b.x - a.y * b.y - a.z * b.z⟩

/-- The `THREE.Quaternion.setFromAxisAngle(axis, angle)` builds
`(axis.x*s, axis.y*s, axis.z*s, c)` with `s = sin(angle/2)`,
`c = cos(angle/2)`.  The source only ever calls it with axis `(1,0,0)` and
angle `π`; the trigonometric evaluation `sin(π/2) = 1`, `cos(π/2) = 0` is
exact, so the sine and cosine of the half angle are passed here as exact
rational arguments. -/
def setFromAxisAngle (axis : Vec3) (s c : ℚ) : Quat :=
  ⟨axis.x * s, axis.y * s, axis.z * s, c⟩

/-- The 180°-about-X correction quaternion built at
`label3d_canvas.tsx:452-454`: `setFromAxisAngle((1,0,0), Math.PI)`,
with `sin(π/2) = 1` and `cos(π/2) = 0`. -/
def xAxis180 : Quat := setFromAxisAngle ⟨1, 0, 0⟩ 1 0

/- ## Application state snapshot (functional/types.ts fragment) -/

/-- Sensor intrinsics.  Modelled from the spec: the `intrinsics` payload
(focal length and principal point) lives in `functional/types.ts`, which is
not among the given sources; only its presence and identity matter here. -/
structure Intrinsics where
  fx : ℚ
  fy : ℚ
  cx : ℚ
  cy : ℚ
deriving DecidableEq

/-- Sensor extrinsics: a rotation quaternion and a translation vector. -/
structure Extrinsics where
  rotation : Quat
  translation : Vec3
deriving DecidableEq

/-- A sensor with optional intrinsics and extrinsics. -/
structure Sensor where
  intrinsics : Option Intrinsics
  extrinsics : Option Extrinsics
deriving DecidableEq

/-- Viewer-config type tags.  Modelled from the spec: `ViewerConfigTypeName`
of `common/types.ts` is not among the given sources; the spec names the three
variants generic 3D, point-cloud, and image-with-intrinsics (`IMAGE_3D`). -/
inductive ViewerConfigTypeName where
  | generic3d
  | pointCloud
  | image3d
deriving DecidableEq

/-- Per-viewer configuration: a type tag and a governing sensor id. -/
structure ViewerConfig where
  type : ViewerConfigTypeName
  sensor : ℕ
deriving DecidableEq

/-- A task item: its labels, each carrying the sensor ids it belongs to. -/
structure Item where
  labels : List (ℕ × List ℕ)
deriving DecidableEq

/-- The slice of the application-state snapshot the viewer core reads:
`user.viewerConfigs` and `task.sensors` as association lists keyed by id,
`task.items`, `user.select.item`, and the frame-loaded predicate.
`loadedSensors` is modelled from the spec: `isCurrentFrameLoaded` of
`functional/state_util.ts` is not among the given sources; the spec specifies
it as a per-sensor "current frame loaded" predicate. -/
structure State where
  viewerConfigs : List (ℕ × ViewerConfig)
  sensors : List (ℕ × Sensor)
  items : List Item
  selectItem : ℕ
  loadedSensors : List ℕ
deriving DecidableEq

/-- Association-list lookup, the embedding of a JavaScript keyed-object read
`obj[k]` (`none` is JavaScript `undefined`). -/
def lookupN {α : Type} (l : List (ℕ × α)) (k : ℕ) : Option α :=
  (l.find? (fun p => p.1 == k)).map Prod.snd

/-- The `isCurrentFrameLoaded(state, sensor)`, via the modelled predicate. -/
def isCurrentFrameLoaded (st : State) (sensor : ℕ) : Bool :=
  sensor ∈ st.loadedSensors

/- ## Cameras -/

/-- The projection kind of the viewer's camera: a `THREE.PerspectiveCamera`
with its constructor parameters, or an `IntrinsicCamera` built from sensor
intrinsics and the loaded image's pixel dimensions. -/
inductive CameraKind where
  | perspective (fov aspect near far : ℚ)
  | intrinsic (intr : Intrinsics) (width height : ℚ)
deriving DecidableEq

/-- A camera object: projection kind, pose (position and quaternion), and the
cached world transform (refreshed only by `updateMatrixWorld`; with no parent
in the scene graph it equals the pose once refreshed). -/
structure Camera where
  kind : CameraKind
  position : Vec3
  quaternion : Quat
  matrixWorld : Vec3 × Quat
deriving DecidableEq

/-- A freshly constructed `new THREE.PerspectiveCamera(45, 1, 0.1, 1000)`,
the camera built in the constructor and in the non-image-3d branch of
`updateState` (`label3d_canvas.tsx:86,330`). -/
def genericCamera : Camera :=
  ⟨.perspective 45 1 (1/10) 1000, zeroVec, idQuat, (zeroVec, idQuat)⟩

/-- A freshly constructed `new IntrinsicCamera(intrinsics, width, height)`
(`label3d_canvas.tsx:322-326`). -/
def intrinsicCamera (intr : Intrinsics) (width height : ℚ) : Camera :=
  ⟨.intrinsic intr width height, zeroVec, idQuat, (zeroVec, idQuat)⟩

/-- The `camera.updateMatrixWorld(true)`: recompute the cached world transform
from the current pose (the camera has no parent in the scene graph). -/
def updateMatrixWorld (cam : Camera) : Camera :=
  { cam with matrixWorld := (cam.position, cam.quaternion) }

/- ## Shared session registry inputs -/

/-- A hit-testable shape from `Session.label3dList.raycastableShapes`.
The geometric ray–object intersection test performed inside
`THREE.Raycaster.intersectObjects` is abstracted as data: `rayDistance` is
the distance along the current ray at which the ray meets the shape, `none`
when the ray misses it. -/
structure Shape where
  objId : ℕ
  rayDistance : Option ℚ
deriving DecidableEq

/-- The parts of the `Session` singleton the canvas reads:
the globally active viewer id, the pixel dimensions of
`Session.images[item][sensor]` keyed by (item, sensor), and the registry's
current `raycastableShapes`. -/
structure Sess where
  activeViewerId : ℕ
  imageDims : List ((ℕ × ℕ) × (ℚ × ℚ))
  shapes : List Shape

/- ## Layer assignment (label3d_canvas.tsx:293-297) -/

/-- The `Math.min(...keys)` over a list of ids.  JavaScript's `Math.min()` of an
empty spread is `+Infinity`; `updateState` only evaluates it on the key set
of `user.viewerConfigs`, which contains this viewer's id on every non-faulting
path, so the empty case (embedded as 0) is never reached under the
hypotheses of the theorems below. -/
def jsMathMin : List ℤ → ℤ
  | [] => 0
  | x :: xs => xs.foldl min x

/-- The integer keys of `user.viewerConfigs`
(`Object.keys(...).map((key) => Number(key))`). -/
def configKeys (st : State) : List ℤ :=
  st.viewerConfigs.map (fun p => (p.1 : ℤ))

/-- The layer channel passed to `this.camera.layers.set` at
`label3d_canvas.tsx:293-297`: the viewer's id minus the smallest configured
viewer id. -/
def assignedLayer (id : ℤ) (keys : List ℤ) : ℤ :=
  id - jsMathMin keys

/- ## State reconciliation (Label3dCanvas.updateState, lines 287-339) -/

/-- The camera-selection block of `updateState`
(`label3d_canvas.tsx:314-333`), given that the viewer's config was already
dereferenced successfully (so the `in` re-check at line 314 passes): an
image-with-intrinsics viewer rebuilds an `IntrinsicCamera` only when its
sensor exists, has intrinsics, and the current frame is loaded — otherwise
the prior camera is kept; every other viewer type gets a fresh generic
perspective camera. -/
def cameraAfterUpdate (sess : Sess) (st : State) (vc : ViewerConfig)
    (cam : Camera) : Camera :=
  if vc.type = ViewerConfigTypeName.image3d then
    match lookupN st.sensors vc.sensor with
    | none => cam
    | some sensor =>
      match sensor.intrinsics with
      | none => cam
      | some intr =>
        if isCurrentFrameLoaded st vc.sensor then
          let dims := ((sess.imageDims.find?
            (fun p => p.1 == (st.selectItem, vc.sensor))).map Prod.snd).getD
            (0, 0)
          intrinsicCamera intr dims.1 dims.2
        else cam
  else genericCamera

/-- The observable outcome of one non-faulting `updateState` pass: the layer
channel set on the camera, the camera after the selection block, and whether
the camera was published to the registry via `setActiveCamera`. -/
structure UpdateOut where
  layer : ℤ
  camera : Camera
  published : Bool
deriving DecidableEq

/-- The `Label3dCanvas.updateState` (`label3d_canvas.tsx:287-339`) as a fallible
function of the state snapshot.  Statement order follows the source: the
layer channel is computed first (line 293); then
`this.state.user.viewerConfigs[this.props.id].sensor` is dereferenced
(lines 300-301), throwing a `TypeError` when the id has no config; then
`item.labels` is dereferenced (lines 299, 302), throwing when
`select.item` is out of range; the per-label layer-enabling loop mutates
registry shapes and is not tracked here; then the camera-selection block
runs (the `in` guard at line 314 cannot fail on this path, the config having
been dereferenced already), and the camera is published exactly when this
viewer is the globally active one (lines 335-337). -/
def updateStateE (sess : Sess) (id : ℕ) (st : State) (cam : Camera) :
    Except String UpdateOut :=
  let layer := assignedLayer (id : ℤ) (configKeys st)
  match lookupN st.viewerConfigs id with
  | none => .error "TypeError: cannot read sensor of undefined"
  | some vc =>
    match st.items.get? st.selectItem with
    | none => .error "TypeError: cannot read labels of undefined"
    | some _item =>
      let cam := cameraAfterUpdate sess st vc cam
      .ok ⟨layer, cam, sess.activeViewerId == id⟩

/- ## Renderer update (Label3dCanvas.updateRenderer, lines 423-473) -/

/-- The image-with-intrinsics branch of `updateRenderer`
(`label3d_canvas.tsx:438-468`): when the governing sensor exists, the camera
position is zeroed; then, when extrinsics are present, the camera quaternion
is set to the sensor's rotation, multiplied on the right by the 180°-about-X
quaternion, and the position is set to the sensor's translation.  A missing
sensor skips the whole block. -/
def updateRendererImage3d (st : State) (sensorId : ℕ) (cam : Camera) :
    Camera :=
  match lookupN st.sensors sensorId with
  | none => cam
  | some sensor =>
    let cam := { cam with position := zeroVec }
    match sensor.extrinsics with
    | none => cam
    | some e =>
      let cam := { cam with quaternion := e.rotation }
      let cam := { cam with quaternion := quatMul cam.quaternion xAxis180 }
      { cam with position := e.translation }

/- ## Redraw and render (Label3dCanvas.redraw / renderThree, lines 158-170,
344-353) -/

/-- What a redraw/render pass did to the framebuffer. -/
inductive RenderAction where
  | noop
  | rendered
  | cleared
deriving DecidableEq

/-- The `Label3dCanvas.renderThree` (`label3d_canvas.tsx:344-353`):
`viewerConfigs[id].sensor` is dereferenced unconditionally (faulting when the
config is missing); then the scene is rendered when a renderer exists and the
frame is loaded, the framebuffer is cleared when a renderer exists otherwise,
and nothing happens without a renderer. -/
def renderThreeE (hasRenderer : Bool) (id : ℕ) (st : State) :
    Except String RenderAction :=
  match lookupN st.viewerConfigs id with
  | none => .error "TypeError: cannot read sensor of undefined"
  | some vc =>
    if hasRenderer && isCurrentFrameLoaded st vc.sensor then .ok .rendered
    else if hasRenderer then .ok .cleared
    else .ok .noop

/-- The `Label3dCanvas.redraw` (`label3d_canvas.tsx:158-170`): with no canvas the
call is a no-op (returning true); otherwise `viewerConfigs[id].sensor` is
dereferenced (faulting when missing); with the frame loaded it runs
`updateRenderer` (whose camera mutation is modelled separately by
`updateRendererImage3d`) and then `renderThree`; with the frame unloaded it
clears when a renderer exists and does nothing otherwise. -/
def redrawE (hasCanvas hasRenderer : Bool) (id : ℕ) (st : State) :
    Except String RenderAction :=
  if !hasCanvas then .ok .noop
  else
    match lookupN st.viewerConfigs id with
    | none => .error "TypeError: cannot read sensor of undefined"
    | some vc =>
      if isCurrentFrameLoaded st vc.sensor then
        renderThreeE hasRenderer id st
      else if hasRenderer then .ok .cleared
      else .ok .noop

/- ## Raycasting (constructor lines 94-97, onMouseMove lines 212-250) -/

/-- The raycaster's configuration fields. -/
structure RaycasterParams where
  near : ℚ
  far : ℚ
  linePrecision : ℚ
deriving DecidableEq

/-- The raycaster built in the constructor (`label3d_canvas.tsx:94-97`):
`new THREE.Raycaster()` followed by `near = 1.0`, `far = 100.0`,
`linePrecision = 0.02`; these assignments overwrite the library defaults and
the fields are never written again. -/
def raycasterInit : RaycasterParams := ⟨1, 100, 1/50⟩

/-- One ray-object intersection record, as THREE reports it: the object and
its distance along the ray. -/
structure Intersection where
  objId : ℕ
  distance : ℚ
deriving DecidableEq

/-- The intersections the raycaster accepts on a shape list: each shape the
ray meets at a distance within the raycaster's `[near, far]` window
(THREE discards intersections outside that window). -/
def validHits (p : RaycasterParams) (shapes : List Shape) :
    List Intersection :=
  shapes.filterMap (fun s =>
    match s.rayDistance with
    | none => none
    | some d => if p.near ≤ d ∧ d ≤ p.far then some ⟨s.objId, d⟩ else none)

/-- Insert an intersection into a distance-ascending list, keeping it
ascending (the ordering step of `intersectObjects`). -/
def insertByDist (i : Intersection) : List Intersection → List Intersection
  | [] => [i]
  | j :: js =>
    if i.distance ≤ j.distance then i :: j :: js else j :: insertByDist i js

/-- Sort intersections by ascending distance, as
`THREE.Raycaster.intersectObjects` sorts its result array. -/
def sortByDist : List Intersection → List Intersection
  | [] => []
  | i :: is => insertByDist i (sortByDist is)

/-- The `this._raycaster.intersectObjects(shapes, false)`: the accepted
intersections in ascending distance order. -/
def intersectObjects (p : RaycasterParams) (shapes : List Shape) :
    List Intersection :=
  sortByDist (validHits p shapes)

/-- The `raycaster.setFromCamera(ndc, camera)` derives the ray from the camera's
cached `matrixWorld` (origin and orientation) and the NDC point; the
unprojection geometry is abstracted, the record keeping exactly the inputs
the ray is a function of. -/
structure Ray where
  anchor : Vec3 × Quat
  ndc : ℚ × ℚ
deriving DecidableEq

/-- The `setFromCamera`: the ray built from the camera's cached world transform
and the NDC coordinates. -/
def setFromCamera (cam : Camera) (ndc : ℚ × ℚ) : Ray :=
  ⟨cam.matrixWorld, ndc⟩

/- ## Input handlers (labelled effects) -/

/-- The observable effects an input handler can produce: calls into the
Interaction Delegate (`Label3DHandler`), event-propagation stop, the
drawable-update notification (`Session.label3dList.onDrawableUpdate`), and
camera publication. -/
inductive Effect where
  | delegateMouseDown
  | delegateMouseUp
  | delegateMouseMove
  | delegateDoubleClick
  | delegateKeyDown
  | delegateKeyUp
  | stopPropagation
  | drawableUpdate
  | publishCamera
deriving DecidableEq

/-- The viewer's key-down map `_keyDownMap`, embedded as the set of keys
mapped to `true`.  `m[k] = true` is `insertKey`; there is no deleting write
anywhere in `label3d_canvas.tsx`. -/
def insertKey (k : String) (m : List String) : List String :=
  if k ∈ m then m else k :: m

/-- Whether a key is marked down in a key-down map (an absent key reads as
`undefined`, which is falsy). -/
def keyIsDown (k : String) (m : List String) : Bool := k ∈ m

/-- The `Label3dCanvas.onMouseDown` (`label3d_canvas.tsx:176-193`): gated on a
present canvas and on the freeze check; otherwise it calls the delegate's
`onMouseDown` and stops propagation when the delegate consumed the event.
`frozen` is the result of `this.checkFreeze()`, modelled from the spec: the
check lives in the `DrawableCanvas` base class (`components/viewer.tsx`),
which is not among the given sources. -/
def onMouseDownRun (frozen canvasPresent consumed : Bool) : List Effect :=
  if !canvasPresent || frozen then []
  else .delegateMouseDown :: (if consumed then [.stopPropagation] else [])

/-- The `Label3dCanvas.onMouseUp` (`label3d_canvas.tsx:199-206`): same gate,
then the delegate's `onMouseUp` and an optional propagation stop. -/
def onMouseUpRun (frozen canvasPresent consumed : Bool) : List Effect :=
  if !canvasPresent || frozen then []
  else .delegateMouseUp :: (if consumed then [.stopPropagation] else [])

/-- The `Label3dCanvas.onDoubleClick` (`label3d_canvas.tsx:359-363`): the
delegate's `onDoubleClick` is called unconditionally — the handler contains
no canvas check and no freeze check — and propagation stops when the
delegate consumed the event. -/
def onDoubleClickRun (consumed : Bool) : List Effect :=
  .delegateDoubleClick :: (if consumed then [.stopPropagation] else [])

/-- The outcome of one ungated `onMouseMove` pass. -/
structure MouseMoveOut where
  camera : Camera
  ray : Ray
  hitPassed : Option Intersection
  effects : List Effect
deriving DecidableEq

/-- The `Label3dCanvas.onMouseMove` (`label3d_canvas.tsx:212-250`): gated on a
present canvas and the freeze check (`none` = early return, no effect);
otherwise it forces `camera.updateMatrixWorld(true)`, sets the ray from the
camera, intersects the registry's current `raycastableShapes`, passes the
first intersection to the delegate's `onMouseMove` when one exists (no hit
otherwise), stops propagation when consumed, and always fires the
drawable-update notification. -/
def onMouseMoveRun (frozen canvasPresent consumed : Bool) (cam : Camera)
    (ndc : ℚ × ℚ) (sess : Sess) : Option MouseMoveOut :=
  if !canvasPresent || frozen then none
  else
    let cam := updateMatrixWorld cam
    let ray := setFromCamera cam ndc
    let intersects := intersectObjects raycasterInit sess.shapes
    some ⟨cam, ray, intersects.head?,
      .delegateMouseMove ::
        ((if consumed then [.stopPropagation] else []) ++ [.drawableUpdate])⟩

/-- The `Label3dCanvas.onKeyDown` (`label3d_canvas.tsx:256-266`): gated on the
freeze check and on this viewer being the globally active one; otherwise it
marks the key down and calls the delegate's `onKeyDown`, firing the
drawable-update notification when the delegate reports a change. -/
def onKeyDownRun (frozen : Bool) (activeViewerId id : ℕ) (handled : Bool)
    (k : String) (m : List String) : List String × List Effect :=
  if frozen || activeViewerId ≠ id then (m, [])
  else (insertKey k m,
    .delegateKeyDown :: (if handled then [.drawableUpdate] else []))

/-- The `Label3dCanvas.onKeyUp` (`label3d_canvas.tsx:272-282`): same gate; then
the source sets `this._keyDownMap[e.key] = true` — it marks the key down
rather than clearing it — and calls the delegate's `onKeyUp`, firing the
drawable-update notification when the delegate reports a change. -/
def onKeyUpRun (frozen : Bool) (activeViewerId id : ℕ) (handled : Bool)
    (k : String) (m : List String) : List String × List Effect :=
  if frozen || activeViewerId ≠ id then (m, [])
  else (insertKey k m,
    .delegateKeyUp :: (if handled then [.drawableUpdate] else []))

/- ## Session key handling (common/session.ts, lines 126-152) -/

/-- The `ConnectionStatus` of `common/session.ts:12-14`. -/
inductive ConnectionStatus where
  | saved
  | saving
  | reconnecting
  | unsaved
deriving DecidableEq

/-- The slice of the `Session` singleton its key handlers touch: the
connection status and `keyDownMap`, the latter embedded as the set of keys
mapped to `true`. -/
structure SessionKeyState where
  status : ConnectionStatus
  keyDownMap : List String
deriving DecidableEq

/-- The `Session.isKeyDown` (`session.ts:150-152`): reads `keyDownMap[key]`
(an absent key reads as `undefined`, which is falsy). -/
def sessionIsKeyDown (k : String) (s : SessionKeyState) : Bool :=
  k ∈ s.keyDownMap

/-- The `Session.onKeyDown` (`session.ts:126-134`): a complete no-op when the
status is `RECONNECTING`; otherwise it sets `keyDownMap[key] = true` and
invokes the callback (the second component records whether it was). -/
def sessionOnKeyDown (k : String) (s : SessionKeyState) :
    SessionKeyState × Bool :=
  if s.status = ConnectionStatus.reconnecting then (s, false)
  else ({ s with keyDownMap := insertKey k s.keyDownMap }, true)

/-- The `Session.onKeyUp` (`session.ts:140-144`): no status gate — it deletes
`keyDownMap[key]` and invokes the callback for every status. -/
def sessionOnKeyUp (k : String) (s : SessionKeyState) :
    SessionKeyState × Bool :=
  ({ s with keyDownMap := s.keyDownMap.filter (fun x => x ≠ k) }, true)

/- ## Listener lifecycle (componentDidMount / componentWillUnmount,
lines 109-124) -/

/-- The registration events a mount or unmount emits: document-level
`addEventListener`/`removeEventListener` for keydown and keyup, and
`Session.label3dList.subscribe`/`unsubscribe` on the scene-update channel. -/
inductive LEvent where
  | addKeyDown
  | addKeyUp
  | subscribeScene
  | removeKeyDown
  | removeKeyUp
  | unsubscribeScene
deriving DecidableEq

/-- The `componentDidMount` (`label3d_canvas.tsx:109-114`): registers the
keydown listener, the keyup listener, and the scene-update subscription, in
that order.  The listener identities are the function references stored in
the constructor, so every cycle registers and deregisters the same
references. -/
def mountEvents : List LEvent := [.addKeyDown, .addKeyUp, .subscribeScene]

/-- The `componentWillUnmount` (`label3d_canvas.tsx:119-124`): deregisters the
same keydown listener, keyup listener, and scene-update subscription. -/
def unmountEvents : List LEvent :=
  [.removeKeyDown, .removeKeyUp, .unsubscribeScene]

/-- The event trace of `n` mount/unmount cycles. -/
def cycleEvents : ℕ → List LEvent
  | 0 => []
  | n + 1 => (mountEvents ++ unmountEvents) ++ cycleEvents n

/-- The document's and channel's listener registries, holding listener
identities (the stable function references, numbered). -/
structure ListenerRegistry where
  keyDown : List ℕ
  keyUp : List ℕ
  sceneSubs : List ℕ
deriving DecidableEq

/-- The `addEventListener`/`subscribe` semantics: registering an
already-registered listener identity is a no-op (the DOM deduplicates an
identical type/listener pair), otherwise the listener is appended. -/
def addListener (l : ℕ) (ls : List ℕ) : List ℕ :=
  if l ∈ ls then ls else ls ++ [l]

/-- Apply one registration event for listener identity `l`
(`removeEventListener`/`unsubscribe` erase the matching entry). -/
def applyLEvent (l : ℕ) (r : ListenerRegistry) : LEvent → ListenerRegistry
  | .addKeyDown => { r with keyDown := addListener l r.keyDown }
  | .addKeyUp => { r with keyUp := addListener l r.keyUp }
  | .subscribeScene => { r with sceneSubs := addListener l r.sceneSubs }
  | .removeKeyDown => { r with keyDown := r.keyDown.erase l }
  | .removeKeyUp => { r with keyUp := r.keyUp.erase l }
  | .unsubscribeScene => { r with sceneSubs := r.sceneSubs.erase l }

/-- Run an event trace against the registries. -/
def runTrace (l : ℕ) (es : List LEvent) (r : ListenerRegistry) :
    ListenerRegistry :=
  es.foldl (applyLEvent l) r

/- ## Concrete fixtures used by counterexamples and witnesses -/

/-- Intrinsics used by concrete test states. -/
def intrFix : Intrinsics := ⟨1, 1, 0, 0⟩

/-- A state whose viewer 0 is image-with-intrinsics on sensor 4, the sensor
has intrinsics, and the current frame for sensor 4 is not loaded. -/
def stUnloaded : State :=
  ⟨[(0, ⟨ViewerConfigTypeName.image3d, 4⟩)],
   [(4, ⟨some intrFix, none⟩)], [⟨[]⟩], 0, []⟩

/-- A session whose active viewer is 0, with no images and no shapes. -/
def sessFix : Sess := ⟨0, [], []⟩

/-- An intrinsics-derived camera left over from an earlier reconciliation. -/
def camIntrinsicFix : Camera := intrinsicCamera intrFix 10 20

/-- A state with no viewer configs at all. -/
def stEmpty : State := ⟨[], [], [], 0, []⟩

/-- A state whose sensor 5 has extrinsics with the identity rotation and
translation (1, 2, 3). -/
def stExtrFix : State :=
  ⟨[], [(5, ⟨none, some ⟨idQuat, ⟨1, 2, 3⟩⟩⟩)], [], 0, []⟩

/-- A state with two configured viewers, ids 2 and 5, both generic. -/
def stTwoViewers : State :=
  ⟨[(2, ⟨ViewerConfigTypeName.generic3d, 0⟩),
    (5, ⟨ViewerConfigTypeName.generic3d, 0⟩)], [], [⟨[]⟩], 0, []⟩

/-- A session whose active viewer is 5. -/
def sessActive5 : Sess := ⟨5, [], []⟩

/- ## C10: session key handlers are asymmetrically gated by status -/

/-- C10: `Session.onKeyDown` is a complete no-op (map unchanged, callback
not invoked) when the status is `RECONNECTING`, while `Session.onKeyUp` is
not gated by status at all: for every status it removes the key from the
key-down map and invokes the callback. -/
theorem sessionKeyGatingAsymmetry (k : String) (s : SessionKeyState) :
    (s.status = ConnectionStatus.reconnecting → sessionOnKeyDown k s = (s, false)) ∧
    ((sessionOnKeyUp k s).2 = true ∧
      sessionIsKeyDown k (sessionOnKeyUp k s).1 = false) ∧
    (s.status ≠ ConnectionStatus.reconnecting →
      (sessionOnKeyDown k s).2 = true ∧
      sessionIsKeyDown k (sessionOnKeyDown k s).1 = true) := by
  refine ⟨fun h => by simp [sessionOnKeyDown, h], ⟨rfl, ?_⟩, fun h => ?_⟩
  · simp [sessionOnKeyUp, sessionIsKeyDown, List.mem_filter]
  · refine ⟨by simp [sessionOnKeyDown, h], ?_⟩
    simp only [sessionOnKeyDown, if_neg h, sessionIsKeyDown, insertKey]
    by_cases hk : k ∈ s.keyDownMap <;> simp [hk]

/-- C10 witness: at status `RECONNECTING`, key-down leaves the state alone
and does not invoke the callback, while key-up clears the key. -/
theorem sessionKeyGatingAsymmetry_witness :
    sessionOnKeyDown "x" ⟨ConnectionStatus.reconnecting, []⟩ =
      (⟨ConnectionStatus.reconnecting, []⟩, false) ∧
    (sessionOnKeyUp "x" ⟨ConnectionStatus.reconnecting, ["x"]⟩).2 = true ∧
    sessionIsKeyDown "x"
      (sessionOnKeyUp "x" ⟨ConnectionStatus.reconnecting, ["x"]⟩).1 = false :=
  ⟨(sessionKeyGatingAsymmetry "x" ⟨ConnectionStatus.reconnecting, []⟩).1 rfl,
   (sessionKeyGatingAsymmetry "x" ⟨ConnectionStatus.reconnecting, ["x"]⟩).2.1.1,
   (sessionKeyGatingAsymmetry "x" ⟨ConnectionStatus.reconnecting, ["x"]⟩).2.1.2⟩

/- ## C3: key-up should clear the key, but the canvas handler sets it -/

/-- C3 evidence: on the failing input (key "a", freeze false, active viewer
0 = this viewer, empty canvas map), the canvas key-up handler leaves "a"
marked as down — `_keyDownMap['a'] = true` is executed by `onKeyUp` — while
the session-level handler does clear the key as the claim states. -/
theorem canvasKeyUpMarksKeyDown :
    keyIsDown "a" (onKeyUpRun false 0 0 false "a" []).1 = true ∧
    keyIsDown "a" (onKeyUpRun false 0 0 false "a" ["a"]).1 = true ∧
    sessionIsKeyDown "a"
      (sessionOnKeyUp "a" ⟨ConnectionStatus.saved, ["a"]⟩).1 = false := by
  decide

/- ## C2: freeze gating covers five of the six handlers -/

/-- C2 counterexample: `onDoubleClick` contains no freeze check (and no
canvas check): the delegate's `onDoubleClick` is invoked on every call,
whatever the delegate's reply — in particular while the freeze condition
holds. -/
theorem doubleClickIgnoresFreeze :
    Effect.delegateDoubleClick ∈ onDoubleClickRun false ∧
    Effect.delegateDoubleClick ∈ onDoubleClickRun true := by
  decide

/-- C2 amended: whenever the freeze condition holds, the five handlers
mouse-down, mouse-up, mouse-move, key-down and key-up return without
invoking any delegate method, without changing the key-down map, and
without any redraw or drawable-update notification; double-click is not
gated and always invokes the delegate. -/
theorem freezeGatesFiveHandlers (cp c handled : Bool) (avi id : ℕ)
    (k : String) (m : List String) (cam : Camera) (ndc : ℚ × ℚ)
    (sess : Sess) :
    onMouseDownRun true cp c = [] ∧
    onMouseUpRun true cp c = [] ∧
    onMouseMoveRun true cp c cam ndc sess = none ∧
    onKeyDownRun true avi id handled k m = (m, []) ∧
    onKeyUpRun true avi id handled k m = (m, []) ∧
    Effect.delegateDoubleClick ∈ onDoubleClickRun c := by
  refine ⟨?_, ?_, ?_, ?_, ?_, ?_⟩ <;>
    simp [onMouseDownRun, onMouseUpRun, onMouseMoveRun, onKeyDownRun,
      onKeyUpRun, onDoubleClickRun]

/- ## C4: extrinsics composition order -/

/-- C4: when the governing sensor exists and has extrinsics, the
image-with-intrinsics branch of `updateRenderer` leaves the camera with
position equal to the sensor's translation and orientation equal to the
sensor's rotation multiplied on the right by the 180°-about-X quaternion,
whatever the camera's prior pose. -/
theorem extrinsicsCompositionOrder (st : State) (sid : ℕ) (cam : Camera)
    (sensor : Sensor) (e : Extrinsics)
    (hs : lookupN st.sensors sid = some sensor)
    (he : sensor.extrinsics = some e) :
    (updateRendererImage3d st sid cam).position = e.translation ∧
    (updateRendererImage3d st sid cam).quaternion = quatMul e.rotation xAxis180 := by
  simp [updateRendererImage3d, hs, he]

/-- C4 witness: identity rotation with translation (1, 2, 3) yields camera
position (1, 2, 3) and orientation equal to the 180°-about-X quaternion
alone. -/
theorem extrinsicsCompositionOrder_witness :
    (updateRendererImage3d stExtrFix 5 genericCamera).position = ⟨1, 2, 3⟩ ∧
    (updateRendererImage3d stExtrFix 5 genericCamera).quaternion = xAxis180 := by
  have h := extrinsicsCompositionOrder stExtrFix 5 genericCamera
    ⟨none, some ⟨idQuat, ⟨1, 2, 3⟩⟩⟩ ⟨idQuat, ⟨1, 2, 3⟩⟩ (by decide) rfl
  refine ⟨h.1, h.2.trans ?_⟩
  simp only [quatMul, idQuat, xAxis180, setFromAxisAngle]
  norm_num

/- ## C1: camera after reconciliation with an unloaded frame -/

/-- C1 counterexample: viewer 0 is configured image-with-intrinsics, its
sensor exists and has intrinsics, the frame is not loaded, and the camera
active before reconciliation is an intrinsics-derived one — after
`updateState` the active camera is still that intrinsics-derived camera,
not the Generic perspective camera. -/
theorem cameraFallbackCounterexample :
    lookupN stUnloaded.viewerConfigs 0 =
      some ⟨ViewerConfigTypeName.image3d, 4⟩ ∧
    isCurrentFrameLoaded stUnloaded 4 = false ∧
    updateStateE sessFix 0 stUnloaded camIntrinsicFix =
      Except.ok ⟨0, camIntrinsicFix, true⟩ ∧
    camIntrinsicFix.kind ≠ genericCamera.kind := by
  refine ⟨rfl, rfl, rfl, ?_⟩
  intro h
  exact CameraKind.noConfusion h

/-- C1 amended: for a viewer configured image-with-intrinsics whose current
frame is not loaded, `updateState` leaves the active camera exactly as it
was before the reconciliation (in particular it is Generic precisely when
the prior camera — such as the constructor's initial camera — was
Generic). -/
theorem cameraRetainedWhenFrameUnloaded (sess : Sess) (id : ℕ) (st : State)
    (cam : Camera) (vc : ViewerConfig) (out : UpdateOut)
    (hvc : lookupN st.viewerConfigs id = some vc)
    (ht : vc.type = ViewerConfigTypeName.image3d)
    (hl : isCurrentFrameLoaded st vc.sensor = false)
    (h : updateStateE sess id st cam = Except.ok out) :
    out.camera = cam := by
  unfold updateStateE at h
  rw [hvc] at h
  cases hi : st.items.get? st.selectItem with
  | none => rw [hi] at h; exact absurd h (by simp)
  | some item =>
    rw [hi] at h
    simp only [Except.ok.injEq] at h
    subst h
    unfold cameraAfterUpdate
    rw [if_pos ht]
    split
    · rfl
    · split
      · rfl
      · simp [hl]

/-- C1 amended witness: on the concrete unloaded-frame state, the prior
intrinsics-derived camera is retained. -/
theorem cameraRetainedWhenFrameUnloaded_witness :
    (⟨0, camIntrinsicFix, true⟩ : UpdateOut).camera = camIntrinsicFix :=
  cameraRetainedWhenFrameUnloaded sessFix 0 stUnloaded camIntrinsicFix
    ⟨ViewerConfigTypeName.image3d, 4⟩ ⟨0, camIntrinsicFix, true⟩
    rfl rfl rfl rfl

/- ## C5: layer assignment -/

/-- Folding `min` never exceeds the initial accumulator. -/
theorem foldlMin_le_init (xs : List ℤ) (a : ℤ) : xs.foldl min a ≤ a := by
  induction xs generalizing a with
  | nil => exact le_refl a
  | cons x xs ih => exact le_trans (ih (min a x)) (min_le_left a x)

/-- Folding `min` is a lower bound of every list element. -/
theorem foldlMin_le_mem (xs : List ℤ) (a : ℤ) :
    ∀ j ∈ xs, xs.foldl min a ≤ j := by
  induction xs generalizing a with
  | nil => intro j hj; cases hj
  | cons x xs ih =>
    intro j hj
    cases hj with
    | head => exact le_trans (foldlMin_le_init xs (min a x)) (min_le_right a x)
    | tail _ hj => exact ih (min a x) j hj

/-- Folding `min` yields the accumulator or a list element. -/
theorem foldlMin_mem_or (xs : List ℤ) (a : ℤ) :
    xs.foldl min a = a ∨ xs.foldl min a ∈ xs := by
  induction xs generalizing a with
  | nil => exact Or.inl rfl
  | cons x xs ih =>
    cases ih (min a x) with
    | inl h =>
      rcases min_choice a x with hm | hm
      · exact Or.inl (by rw [List.foldl_cons, h, hm])
      · exact Or.inr (by rw [List.foldl_cons, h, hm]; exact List.mem_cons_self x xs)
    | inr h => exact Or.inr (List.mem_cons_of_mem x h)

/-- The `jsMathMin` of a nonempty list is a member of the list. -/
theorem jsMathMin_mem (keys : List ℤ) (h : keys ≠ []) :
    jsMathMin keys ∈ keys := by
  cases keys with
  | nil => exact absurd rfl h
  | cons x xs =>
    cases foldlMin_mem_or xs x with
    | inl hm => rw [jsMathMin, hm]; exact List.mem_cons_self x xs
    | inr hm => exact List.mem_cons_of_mem x hm

/-- The `jsMathMin` of a nonempty list is a lower bound of the list. -/
theorem jsMathMin_le (keys : List ℤ) (j : ℤ) (hj : j ∈ keys) :
    jsMathMin keys ≤ j := by
  cases keys with
  | nil => cases hj
  | cons x xs =>
    cases hj with
    | head => exact foldlMin_le_init xs j
    | tail _ hj => exact foldlMin_le_mem xs x j hj

/-- A successful config lookup puts the viewer's id among the config keys. -/
theorem mem_configKeys_of_lookup (st : State) (id : ℕ) (vc : ViewerConfig)
    (h : lookupN st.viewerConfigs id = some vc) :
    (id : ℤ) ∈ configKeys st := by
  unfold lookupN at h
  rcases Option.map_eq_some'.mp h with ⟨pr, hf, _⟩
  obtain ⟨k, cfg⟩ := pr
  have hp := List.find?_some hf
  have hm := List.mem_of_find?_eq_some hf
  have hk : k = id := by simpa using hp
  subst hk
  unfold configKeys
  exact List.mem_map_of_mem (fun p => ((p.1 : ℤ))) hm

/-- C5: on every (non-faulting) state reconciliation, the layer channel set
on the camera equals the viewer's id minus the minimum configured viewer id
— `jsMathMin` being the genuine minimum of the configured key set — the
lowest configured id is assigned layer 0, and a second reconciliation from
the same state assigns the same layer. -/
theorem layerAssignmentPure (sess sess2 : Sess) (id : ℕ) (st : State)
    (cam cam2 : Camera) (out out2 : UpdateOut)
    (h : updateStateE sess id st cam = Except.ok out)
    (h2 : updateStateE sess2 id st cam2 = Except.ok out2) :
    out.layer = (id : ℤ) - jsMathMin (configKeys st) ∧
    jsMathMin (configKeys st) ∈ configKeys st ∧
    (∀ j ∈ configKeys st, jsMathMin (configKeys st) ≤ j) ∧
    assignedLayer (jsMathMin (configKeys st)) (configKeys st) = 0 ∧
    out2.layer = out.layer := by
  have hlayer : ∀ (s : Sess) (c : Camera) (o : UpdateOut),
      updateStateE s id st c = Except.ok o →
      o.layer = (id : ℤ) - jsMathMin (configKeys st) := by
    intro s c o ho
    unfold updateStateE at ho
    cases hvc : lookupN st.viewerConfigs id with
    | none => rw [hvc] at ho; exact absurd ho (by simp)
    | some vc =>
      rw [hvc] at ho
      cases hi : st.items.get? st.selectItem with
      | none => rw [hi] at ho; exact absurd ho (by simp)
      | some item =>
        rw [hi] at ho
        simp only [Except.ok.injEq] at ho
        subst ho
        rfl
  have hne : configKeys st ≠ [] := by
    unfold updateStateE at h
    cases hvc : lookupN st.viewerConfigs id with
    | none => rw [hvc] at h; exact absurd h (by simp)
    | some vc =>
      have := mem_configKeys_of_lookup st id vc hvc
      exact List.ne_nil_of_mem this
  refine ⟨hlayer sess cam out h, jsMathMin_mem _ hne, ?_, ?_, ?_⟩
  · intro j hj; exact jsMathMin_le _ j hj
  · simp [assignedLayer]
  · rw [hlayer sess cam out h, hlayer sess2 cam2 out2 h2]

/-- C5 witness: with configured viewer ids {2, 5}, viewer 5 is assigned
layer 3 twice over, and viewer 2 (the lowest id) would get layer 0. -/
theorem layerAssignmentPure_witness :
    (⟨3, genericCamera, false⟩ : UpdateOut).layer =
      (5 : ℤ) - jsMathMin (configKeys stTwoViewers) ∧
    assignedLayer (jsMathMin (configKeys stTwoViewers))
      (configKeys stTwoViewers) = 0 := by
  have h := layerAssignmentPure sessFix sessFix 5 stTwoViewers genericCamera
    genericCamera ⟨3, genericCamera, false⟩ ⟨3, genericCamera, false⟩ rfl rfl
  exact ⟨h.1, h.2.2.2.1⟩

/- ## C7: active-viewer gating of camera publication and keyboard input -/

/-- C7: a non-faulting reconciliation publishes the camera to the registry
via `setActiveCamera` exactly when this viewer is the globally active one;
keyboard events reach the delegate only when this viewer is the globally
active one; keyboard handling never publishes a camera. -/
theorem activeViewerPublication (sess : Sess) (id : ℕ) (st : State)
    (cam : Camera) (out : UpdateOut) (frozen handled : Bool) (k : String)
    (m : List String)
    (h : updateStateE sess id st cam = Except.ok out) :
    (out.published = true ↔ sess.activeViewerId = id) ∧
    (Effect.delegateKeyDown ∈
        (onKeyDownRun frozen sess.activeViewerId id handled k m).2 →
      sess.activeViewerId = id) ∧
    (Effect.delegateKeyUp ∈
        (onKeyUpRun frozen sess.activeViewerId id handled k m).2 →
      sess.activeViewerId = id) ∧
    Effect.publishCamera ∉
      (onKeyDownRun frozen sess.activeViewerId id handled k m).2 ∧
    (sess.activeViewerId ≠ id → out.published = false) := by
  have hpub : out.published = (sess.activeViewerId == id) := by
    unfold updateStateE at h
    cases hvc : lookupN st.viewerConfigs id with
    | none => rw [hvc] at h; exact absurd h (by simp)
    | some vc =>
      rw [hvc] at h
      cases hi : st.items.get? st.selectItem with
      | none => rw [hi] at h; exact absurd h (by simp)
      | some item =>
        rw [hi] at h
        simp only [Except.ok.injEq] at h
        subst h
        rfl
  have hiff : out.published = true ↔ sess.activeViewerId = id := by
    rw [hpub]; simp
  refine ⟨hiff, ?_, ?_, ?_, ?_⟩
  · intro hmem
    by_cases hid : sess.activeViewerId = id
    · exact hid
    · simp [onKeyDownRun, hid] at hmem
  · intro hmem
    by_cases hid : sess.activeViewerId = id
    · exact hid
    · simp [onKeyUpRun, hid] at hmem
  · intro hmem
    unfold onKeyDownRun at hmem
    by_cases hg : (frozen || decide (sess.activeViewerId ≠ id)) = true
    · rw [if_pos hg] at hmem
      simp at hmem
    · rw [if_neg hg] at hmem
      cases handled <;> simp at hmem
  · intro hne
    rw [hpub]
    simp [hne]

/-- C7 witness: with active viewer 5 and this viewer 5, the camera is
published; with this viewer 5 but active viewer 0, key-down effects carry
no delegate call and no publication. -/
theorem activeViewerPublication_witness :
    ((⟨3, genericCamera, true⟩ : UpdateOut).published = true ↔
      sessActive5.activeViewerId = 5) ∧
    Effect.publishCamera ∉
      (onKeyDownRun false sessActive5.activeViewerId 5 true "a" []).2 := by
  have h := activeViewerPublication sessActive5 5 stTwoViewers genericCamera
    ⟨3, genericCamera, true⟩ false true "a" [] rfl
  exact ⟨h.1, h.2.2.2.1⟩

/- ## C8: fault behavior of the public operations -/

/-- C8 counterexample: on a snapshot lacking this viewer's configuration,
`updateState` dereferences `viewerConfigs[id].sensor` and faults with a
TypeError — the reconciliation pass does not degrade to a no-op, even
though the function's own later `in` guard anticipates exactly this
condition. -/
theorem updateStateFaultsOnMissingConfig :
    updateStateE sessFix 3 stEmpty genericCamera =
      Except.error "TypeError: cannot read sensor of undefined" ∧
    renderThreeE true 3 stEmpty =
      Except.error "TypeError: cannot read sensor of undefined" ∧
    redrawE true true 3 stEmpty =
      Except.error "TypeError: cannot read sensor of undefined" := by
  exact ⟨rfl, rfl, rfl⟩

/-- C8 amended: provided the snapshot contains this viewer's configuration
and the selected item exists, `updateState`, `redraw` and `renderThree`
never fault; a missing canvas makes `redraw` a no-op, an unloaded frame
makes it clear (no-op without a renderer), and a missing renderer makes
`renderThree` a no-op. -/
theorem noFaultWithConfigAndItem (sess : Sess) (id : ℕ) (st : State)
    (cam : Camera) (vc : ViewerConfig)
    (hvc : lookupN st.viewerConfigs id = some vc)
    (hit : st.selectItem < st.items.length) :
    (∃ out, updateStateE sess id st cam = Except.ok out) ∧
    (∀ hr : Bool, redrawE false hr id st = Except.ok RenderAction.noop) ∧
    (isCurrentFrameLoaded st vc.sensor = false →
      redrawE true true id st = Except.ok RenderAction.cleared ∧
      redrawE true false id st = Except.ok RenderAction.noop) ∧
    renderThreeE false id st = Except.ok RenderAction.noop ∧
    (∀ hc hr : Bool, ∃ a, redrawE hc hr id st = Except.ok a) ∧
    (∀ hr : Bool, ∃ a, renderThreeE hr id st = Except.ok a) := by
  have hi : st.items.get? st.selectItem =
      some (st.items.get ⟨st.selectItem, hit⟩) := List.get?_eq_get hit
  have hrt : ∀ hr : Bool, ∃ a, renderThreeE hr id st = Except.ok a := by
    intro hr
    by_cases hl : (hr && isCurrentFrameLoaded st vc.sensor) = true
    · exact ⟨RenderAction.rendered, by simp [renderThreeE, hvc, hl]⟩
    · cases hr with
      | true => exact ⟨RenderAction.cleared, by simp [renderThreeE, hvc, hl]⟩
      | false => exact ⟨RenderAction.noop, by simp [renderThreeE, hvc]⟩
  refine ⟨?_, ?_, ?_, ?_, ?_, hrt⟩
  · refine ⟨⟨assignedLayer (id : ℤ) (configKeys st),
      cameraAfterUpdate sess st vc cam, sess.activeViewerId == id⟩, ?_⟩
    unfold updateStateE
    rw [hvc, hi]
  · intro hr; rfl
  · intro hl
    constructor
    · simp [redrawE, hvc, hl]
    · simp [redrawE, hvc, hl]
  · simp [renderThreeE, hvc]
  · intro hc hr
    cases hc with
    | false => exact ⟨RenderAction.noop, rfl⟩
    | true =>
      by_cases hl : isCurrentFrameLoaded st vc.sensor = true
      · rcases hrt hr with ⟨a, ha⟩
        exact ⟨a, by simp [redrawE, hvc, hl]; exact ha⟩
      · cases hr with
        | true =>
          exact ⟨RenderAction.cleared, by simp [redrawE, hvc, hl]⟩
        | false =>
          exact ⟨RenderAction.noop, by simp [redrawE, hvc, hl]⟩

/-- C8 amended witness: on a concrete well-formed snapshot with an unloaded
frame, nothing faults and redraw degrades as stated. -/
theorem noFaultWithConfigAndItem_witness :
    (∃ out, updateStateE sessFix 0 stUnloaded genericCamera =
      Except.ok out) ∧
    redrawE false true 0 stUnloaded = Except.ok RenderAction.noop ∧
    redrawE true true 0 stUnloaded = Except.ok RenderAction.cleared ∧
    renderThreeE false 0 stUnloaded = Except.ok RenderAction.noop := by
  have h := noFaultWithConfigAndItem sessFix 0 stUnloaded genericCamera
    ⟨ViewerConfigTypeName.image3d, 4⟩ rfl (by decide)
  exact ⟨h.1, h.2.1 true, (h.2.2.1 rfl).1, h.2.2.2.1⟩

/- ## C6: mouse-move hit test -/

/-- The distance order on intersections. -/
def distLE (a b : Intersection) : Prop := a.distance ≤ b.distance

/-- Membership through `insertByDist`. -/
theorem mem_insertByDist (a i : Intersection) (l : List Intersection) :
    a ∈ insertByDist i l ↔ a = i ∨ a ∈ l := by
  induction l with
  | nil => simp [insertByDist]
  | cons j js ih =>
    unfold insertByDist
    by_cases hij : i.distance ≤ j.distance
    · rw [if_pos hij]
      simp [or_comm, or_assoc, or_left_comm]
    · rw [if_neg hij]
      simp [ih]
      tauto

/-- Membership through `sortByDist`. -/
theorem mem_sortByDist (a : Intersection) (l : List Intersection) :
    a ∈ sortByDist l ↔ a ∈ l := by
  induction l with
  | nil => simp [sortByDist]
  | cons i is ih => simp [sortByDist, mem_insertByDist, ih]

/-- The `insertByDist` preserves ascending distance order. -/
theorem pairwise_insertByDist (i : Intersection) (l : List Intersection)
    (h : List.Pairwise distLE l) :
    List.Pairwise distLE (insertByDist i l) := by
  induction l with
  | nil => simp [insertByDist, List.pairwise_singleton]
  | cons j js ih =>
    rw [List.pairwise_cons] at h
    obtain ⟨hj, hjs⟩ := h
    unfold insertByDist
    by_cases hij : i.distance ≤ j.distance
    · rw [if_pos hij]
      refine List.Pairwise.cons ?_ (List.Pairwise.cons hj hjs)
      intro b hb
      cases hb with
      | head => exact hij
      | tail _ hb => exact le_trans hij (hj b hb)
    · rw [if_neg hij]
      refine List.Pairwise.cons ?_ (ih hjs)
      intro b hb
      rcases (mem_insertByDist b i js).mp hb with hb | hb
      · subst hb; exact le_of_not_le hij
      · exact hj b hb

/-- The `sortByDist` yields an ascending-distance list. -/
theorem pairwise_sortByDist (l : List Intersection) :
    List.Pairwise distLE (sortByDist l) := by
  induction l with
  | nil => simp [sortByDist]
  | cons i is ih => exact pairwise_insertByDist i (sortByDist is) ih

/-- The `insertByDist` never produces the empty list. -/
theorem insertByDist_ne_nil (i : Intersection) (l : List Intersection) :
    insertByDist i l ≠ [] := by
  cases l with
  | nil => simp [insertByDist]
  | cons j js =>
    unfold insertByDist
    by_cases hij : i.distance ≤ j.distance
    · rw [if_pos hij]; simp
    · rw [if_neg hij]; simp

/-- The `sortByDist` is empty only on the empty list. -/
theorem sortByDist_eq_nil_iff (l : List Intersection) :
    sortByDist l = [] ↔ l = [] := by
  cases l with
  | nil => simp [sortByDist]
  | cons i is =>
    simp only [sortByDist]
    exact ⟨fun h => absurd h (insertByDist_ne_nil i (sortByDist is)),
      fun h => List.noConfusion h⟩

/-- C6: an ungated mouse-move pass uses the raycaster configured with near
plane 1.0, far plane 100.0 and line precision 0.02; the ray it casts is
anchored at the camera's current pose — the world matrix is refreshed
before the ray is set, so any stale cached transform is overwritten — the
accepted intersections come from the registry's shape set passed at call
time, and the delegate receives the nearest accepted intersection when any
exists and no hit otherwise. -/
theorem mouseMoveHitTest (consumed : Bool) (cam : Camera) (ndc : ℚ × ℚ)
    (sess : Sess) (out : MouseMoveOut)
    (h : onMouseMoveRun false true consumed cam ndc sess = some out) :
    raycasterInit = ⟨1, 100, 1/50⟩ ∧
    out.ray.anchor = (cam.position, cam.quaternion) ∧
    out.camera.matrixWorld = (cam.position, cam.quaternion) ∧
    (out.hitPassed = none ↔ validHits raycasterInit sess.shapes = []) ∧
    (∀ i, out.hitPassed = some i →
      i ∈ validHits raycasterInit sess.shapes ∧
      ∀ j ∈ validHits raycasterInit sess.shapes, i.distance ≤ j.distance) := by
  unfold onMouseMoveRun at h
  simp only [Bool.not_true, Bool.false_or, Bool.false_eq_true, if_false,
    Option.some.injEq] at h
  subst h
  refine ⟨rfl, rfl, rfl, ?_, ?_⟩
  · show (sortByDist (validHits raycasterInit sess.shapes)).head? = none ↔ _
    rw [List.head?_eq_none_iff, sortByDist_eq_nil_iff]
  · intro i hi
    show i ∈ validHits raycasterInit sess.shapes ∧ _
    have hhead : (sortByDist (validHits raycasterInit sess.shapes)).head? =
        some i := hi
    cases hs : sortByDist (validHits raycasterInit sess.shapes) with
    | nil => rw [hs] at hhead; exact absurd hhead (by simp)
    | cons i0 t =>
      rw [hs] at hhead
      simp only [List.head?_cons, Option.some.injEq] at hhead
      subst hhead
      have hmem : i0 ∈ validHits raycasterInit sess.shapes := by
        rw [← mem_sortByDist, hs]
        exact List.mem_cons_self i0 t
      refine ⟨hmem, ?_⟩
      intro j hj
      have hjs : j ∈ i0 :: t := by
        rw [← hs, mem_sortByDist]
        exact hj
      have hpw := pairwise_sortByDist (validHits raycasterInit sess.shapes)
      rw [hs, List.pairwise_cons] at hpw
      cases hjs with
      | head => exact le_refl _
      | tail _ hjs => exact hpw.1 j hjs

/-- Concrete registry for the hit-test witness: three shapes the ray meets
at distances 5, 2 and 8, one missed shape, and one at distance 1/2,
inside the raycaster's near plane. -/
def sessShapes : Sess :=
  ⟨0, [], [⟨1, some 5⟩, ⟨2, some 2⟩, ⟨3, some 8⟩, ⟨4, none⟩, ⟨6, some (1/2)⟩]⟩

/-- C6 witness: on the concrete registry, the hit passed to the delegate is
the shape at distance 2, the nearest accepted intersection. -/
theorem mouseMoveHitTest_witness :
    (∃ out, onMouseMoveRun false true false genericCamera (0, 0) sessShapes =
        some out ∧ out.hitPassed = some ⟨2, 2⟩ ∧
        out.ray.anchor = (genericCamera.position, genericCamera.quaternion) ∧
        ∀ j ∈ validHits raycasterInit sessShapes.shapes,
          (⟨2, 2⟩ : Intersection).distance ≤ j.distance) := by
  have hrun : onMouseMoveRun false true false genericCamera (0, 0) sessShapes =
      some ⟨updateMatrixWorld genericCamera,
        setFromCamera (updateMatrixWorld genericCamera) (0, 0),
        some ⟨2, 2⟩,
        [Effect.delegateMouseMove, Effect.drawableUpdate]⟩ := by
    unfold onMouseMoveRun
    norm_num [intersectObjects, validHits, sortByDist, insertByDist,
      raycasterInit, sessShapes]
  have h := mouseMoveHitTest false genericCamera (0, 0) sessShapes _ hrun
  refine ⟨_, hrun, rfl, h.2.1, ?_⟩
  intro j hj
  exact (h.2.2.2.2 ⟨2, 2⟩ rfl).2 j hj

/- ## C9: listener lifecycle over mount/unmount cycles -/

/-- Erasing a freshly appended element restores the original list. -/
theorem erase_append_singleton (l : ℕ) (ls : List ℕ) (h : l ∉ ls) :
    (ls ++ [l]).erase l = ls := by
  induction ls with
  | nil => simp
  | cons a as ih =>
    have hal : a ≠ l := fun he => h (he ▸ List.mem_cons_self a as)
    have has : l ∉ as := fun hm => h (List.mem_cons_of_mem a hm)
    rw [List.cons_append, List.erase_cons_tail, ih has]
    simp [hal]

/-- One mount/unmount cycle restores registries that did not hold the
listener beforehand. -/
theorem cycle_restores (l : ℕ) (r : ListenerRegistry)
    (h1 : l ∉ r.keyDown) (h2 : l ∉ r.keyUp) (h3 : l ∉ r.sceneSubs) :
    runTrace l (mountEvents ++ unmountEvents) r = r := by
  obtain ⟨kd, ku, ss⟩ := r
  simp [runTrace, mountEvents, unmountEvents, applyLEvent, addListener,
    h1, h2, h3, erase_append_singleton]

/-- C9: `n` mount/unmount cycles emit exactly `n` keydown registrations
matched by `n` keydown deregistrations, likewise for keyup and for the
scene-update subscription, and leave the document's and channel's listener
registries exactly as they started — no leaked listener and no double
registration survives any unmount. -/
theorem listenerLifecycleBalanced (n l : ℕ) (r : ListenerRegistry)
    (h1 : l ∉ r.keyDown) (h2 : l ∉ r.keyUp) (h3 : l ∉ r.sceneSubs) :
    (cycleEvents n).count LEvent.addKeyDown = n ∧
    (cycleEvents n).count LEvent.removeKeyDown = n ∧
    (cycleEvents n).count LEvent.addKeyUp = n ∧
    (cycleEvents n).count LEvent.removeKeyUp = n ∧
    (cycleEvents n).count LEvent.subscribeScene = n ∧
    (cycleEvents n).count LEvent.unsubscribeScene = n ∧
    runTrace l (cycleEvents n) r = r := by
  induction n with
  | zero => exact ⟨rfl, rfl, rfl, rfl, rfl, rfl, rfl⟩
  | succ n ih =>
    have hrun : runTrace l (cycleEvents (n + 1)) r = r := by
      show runTrace l ((mountEvents ++ unmountEvents) ++ cycleEvents n) r = r
      unfold runTrace
      rw [List.foldl_append]
      have hc := cycle_restores l r h1 h2 h3
      unfold runTrace at hc
      rw [hc]
      exact ih.2.2.2.2.2.2
    refine ⟨?_, ?_, ?_, ?_, ?_, ?_, hrun⟩ <;>
      · show ((mountEvents ++ unmountEvents) ++ cycleEvents n).count _ = n + 1
        simp only [List.count_append, mountEvents, unmountEvents]
        simp [List.count_cons, ih.1, ih.2.1, ih.2.2.1, ih.2.2.2.1,
          ih.2.2.2.2.1, ih.2.2.2.2.2.1]
        omega

/-- C9 witness: two cycles on initially empty registries emit two matched
pairs of each kind and leave the registries empty. -/
theorem listenerLifecycleBalanced_witness :
    (cycleEvents 2).count LEvent.addKeyDown = 2 ∧
    (cycleEvents 2).count LEvent.removeKeyDown = 2 ∧
    runTrace 7 (cycleEvents 2) ⟨[], [], []⟩ = ⟨[], [], []⟩ := by
  have h := listenerLifecycleBalanced 2 7 ⟨[], [], []⟩
    (List.not_mem_nil 7) (List.not_mem_nil 7) (List.not_mem_nil 7)
  exact ⟨h.1, h.2.1, h.2.2.2.2.2.2⟩

end Scalabel
